import Mathlib

/-!
Verification development for the financial transformer recommendation engine.

The definitions below are shallow embeddings of the Python sources:
- `ml_recommendation_engine/models/transformer_model.py`
- `ml_recommendation_engine/training/lightning_module.py`
- `ml_recommendation_engine/training/metrics.py`

Real-valued tensor arithmetic is modelled over `ℝ` (transcendental functions) or
`ℚ` (purely rational arithmetic), elementwise over lists or `Fin`-indexed
vectors.  Python `float` values that may be infinite are modelled by `PyFloat`.
Python dicts with string keys are modelled as association lists built in the
insertion order of the source.  Definitions whose names match the Python
functions are direct translations of those functions.
-/

/-! ## Python float values

A Python float that the metrics code can produce: a finite real, `float("inf")`
or `float("-inf")`.  (NaN inputs are modelled where needed by `Option`.) -/

inductive PyFloat : Type where
  | fin (x : ℝ) : PyFloat
  | pinf : PyFloat
  | ninf : PyFloat

/-! ## Multi-task loss combiner (`FinancialLightningModule._compute_total_loss`)

The component losses are Python floats; `recommendation_loss` is always
computed, the other three only when the corresponding model output is present
(`lightning_module.py` lines 245-270).  The `losses` dict is modelled as an
association list in insertion order. -/

structure LossComponents where
  recommendation : ℚ
  confidence : Option ℚ
  risk : Option ℚ
  regime : Option ℚ

/-- Entries of the `losses` dict built by `_compute_total_loss`, in insertion
order, before `total_loss` is added. -/
def lossEntries (L : LossComponents) : List (String × ℚ) :=
  [("recommendation_loss", L.recommendation)]
    ++ (match L.confidence with | some c => [("confidence_loss", c)] | none => [])
    ++ (match L.risk with | some r => [("risk_loss", r)] | none => [])
    ++ (match L.regime with | some r => [("regime_loss", r)] | none => [])

/-- Default `loss_weights` from `FinancialLightningModule.__init__` (lines
93-98): `{recommendation: 1.0, confidence: 0.3, risk: 0.2, regime: 0.1}`. -/
def defaultLossWeights : List (String × ℚ) :=
  [("recommendation", 1), ("confidence", 3/10), ("risk", 2/10), ("regime", 1/10)]

/-- Python: `weight_key = loss_name.replace("_loss", "")`.  Every key of the
`losses` dict ends in the 5-character suffix `_loss` (its only occurrence), so
the replacement strips that suffix. -/
def weightKey (lossName : String) : String := lossName.dropRight 5

/-- Python loop (lines 272-277):
`total_loss = 0.0; for loss_name, loss_value in losses.items():
total_loss += self.loss_weights.get(weight_key, 1.0) * loss_value`. -/
def computeTotalLoss (loss_weights : List (String × ℚ)) (L : LossComponents) : ℚ :=
  (lossEntries L).foldl
    (fun total e => total + ((loss_weights.lookup (weightKey e.1)).getD 1) * e.2) 0

/-! ## Regime label inference (`FinancialLightningModule._calculate_regime_loss`)

Lines 217-231: `regime_labels` starts at zero and the bull, bear and sideways
masks assign 0, 1, 2 in that order; the masks test the per-sample mean and
standard deviation of the target vector against 0.001, 0.03, -0.001, 0.02. -/

def regimeLabel (target_mean target_std : ℚ) : ℕ :=
  let l0 : ℕ := 0
  let l1 := if 1/1000 < target_mean ∧ target_std < 3/100 then 0 else l0
  let l2 := if target_mean < -(1/1000) ∧ 1/50 < target_std then 1 else l1
  if ¬((1/1000 < target_mean ∧ target_std < 3/100) ∨
       (target_mean < -(1/1000) ∧ 1/50 < target_std)) then 2 else l2

/-! ## Recommendation loss (`FinancialLightningModule._calculate_recommendation_loss`)

Lines 128-164.  `torch.argsort(v, descending=True)` returns the indices that
sort `v` in descending order; ties keep the lower index first. -/

/-- Indices sorting a rational vector in descending order
(`torch.argsort(v, descending=True)`). -/
def argsortDesc (xs : List ℚ) : List ℕ :=
  (List.range xs.length).insertionSort (fun i j => xs.getD j 0 ≤ xs.getD i 0)

/-- Torch `F.mse_loss` with default mean reduction: the average squared
difference over all elements of the two (same-shaped) batches. -/
def mseLoss (predictions targets : List (List ℚ)) : ℚ :=
  ((predictions.flatten.zip targets.flatten).map (fun ab => (ab.1 - ab.2) ^ 2)).sum
    / (predictions.flatten.length : ℚ)

/-- Loop body for one sample `i` (lines 143-151): descending argsorts of the
predicted and target vectors, `d_squared` their elementwise squared
difference, and `1 - spearman_corr` accumulated as loss. -/
def sampleRankingLoss (p t : List ℚ) : ℚ :=
  let pred_ranks := argsortDesc p
  let target_ranks := argsortDesc t
  let n : ℚ := (pred_ranks.length : ℚ)
  let d_squared : ℚ :=
    ((pred_ranks.zip target_ranks).map (fun ab => ((ab.1 : ℚ) - (ab.2 : ℚ)) ^ 2)).sum
  let spearman_corr := 1 - (6 * d_squared) / (n * (n ^ 2 - 1))
  1 - spearman_corr

/-- Python `_calculate_recommendation_loss`: MSE plus `0.1` times the
batch-averaged ranking loss; if confidence is given, the combined loss is
multiplied by `(1.0 + 0.5 * confidence).mean()` (lines 136-164). -/
def calculate_recommendation_loss
    (predictions targets : List (List ℚ)) (confidence : Option (List ℚ)) : ℚ :=
  let mse_loss := mseLoss predictions targets
  let ranking_loss :=
    ((predictions.zip targets).foldl (fun acc pt => acc + sampleRankingLoss pt.1 pt.2) 0)
      / (predictions.length : ℚ)
  let total_loss := mse_loss + (1/10) * ranking_loss
  match confidence with
  | some c => total_loss * (((c.map (fun x => 1 + (1/2) * x)).sum) / (c.length : ℚ))
  | none => total_loss

/-- Spearman-style statistic exactly as the specification writes it:
`ρ = 1 − 6·Σ(rank_pred−rank_target)²/(n·(n²−1))`, with the descending ranks
of the two vectors. -/
def rhoSpec (p t : List ℚ) : ℚ :=
  1 - 6 * (((argsortDesc p).zip (argsortDesc t)).map
      (fun ab => ((ab.1 : ℚ) - (ab.2 : ℚ)) ^ 2)).sum
    / ((p.length : ℚ) * ((p.length : ℚ) ^ 2 - 1))

/-- Recommendation loss as the specification states it: MSE plus 0.1 times the
batch average of `1 − ρ`, the whole scaled by `mean(1 + 0.5·confidence)` when
confidence is supplied. -/
def recommendationLossSpec
    (predictions targets : List (List ℚ)) (confidence : Option (List ℚ)) : ℚ :=
  let base := mseLoss predictions targets
    + (1/10) * (((predictions.zip targets).map (fun pt => 1 - rhoSpec pt.1 pt.2)).sum
        / (predictions.length : ℚ))
  match confidence with
  | some c => base * (((c.map (fun x => 1 + (1/2) * x)).sum) / (c.length : ℚ))
  | none => base

/-! ## Mean reciprocal rank (`FinancialMetrics.calculate_recommendation_metrics`)

Lines 409-421 of `metrics.py`:
`rec_ranks = np.argsort(np.argsort(rec_np[i]))[::-1] + 1` — note that `[::-1]`
reverses the array of ascending ranks — then
`rank_of_best = rec_ranks[np.argmax(target_np[i])]` and `1.0 / rank_of_best`
is averaged. -/

/-- Indices sorting a vector ascending (`np.argsort`); ties keep the lower
index first. -/
def argsortAsc {α : Type} [LinearOrder α] [Inhabited α] (xs : List α) : List ℕ :=
  (List.range xs.length).insertionSort (fun i j => xs.getD i default ≤ xs.getD j default)

/-- Python `np.argmax`: index of the first maximal element. -/
def npArgmax (xs : List ℚ) : ℕ :=
  (xs.enum.foldl (fun best iv => if best.2 < iv.2 then iv else best) (0, xs.getD 0 0)).1

/-- The `rec_ranks` array of the source: ascending ranks
(`np.argsort(np.argsort(v))`), then reversed by `[::-1]`, then `+ 1`. -/
def recRanks (xs : List ℚ) : List ℕ :=
  ((argsortAsc (argsortAsc xs)).reverse).map (· + 1)

/-- The `mrr` metric exactly as `metrics.py` computes it (lines 409-421). -/
def calculate_mrr (recommendations targets : List (List ℚ)) : ℚ :=
  (((recommendations.zip targets).map
      (fun rt => (1 : ℚ) / (((recRanks rt.1).getD (npArgmax rt.2) 0 : ℕ) : ℚ))).sum)
    / (recommendations.length : ℚ)

/-- Position (1 = top) of index `j` within the descending ordering of `xs`. -/
def descPosition (xs : List ℚ) (j : ℕ) : ℕ := (argsortDesc xs).indexOf j + 1

/-- Mean reciprocal rank as the specification states it: average of `1/rank`,
where rank is the position of the sample's best actual asset within the
descending ordering of the recommendation scores. -/
def mrrSpec (recommendations targets : List (List ℚ)) : ℚ :=
  (((recommendations.zip targets).map
      (fun rt => (1 : ℚ) / ((descPosition rt.1 (npArgmax rt.2) : ℕ) : ℚ))).sum)
    / (recommendations.length : ℚ)

/-! ## Metrics tracker (`MetricsTracker`, `metrics.py` lines 657-682)

Metric bundles are dicts from metric name to float, modelled as association
lists over `ℚ`. -/

structure MetricsTracker where
  epoch_metrics : List (ℕ × List (String × ℚ))
  best_metrics : List (String × ℚ)
  best_epoch : ℕ

/-- Python `MetricsTracker.__init__`. -/
def MetricsTracker.init : MetricsTracker := ⟨[], [], 0⟩

/-- Python `metrics.get("sharpe_ratio", metrics.get("f1", 0.0))`. -/
def primaryMetricOf (metrics : List (String × ℚ)) : ℚ :=
  (metrics.lookup "sharpe_ratio").getD ((metrics.lookup "f1").getD 0)

/-- Python `MetricsTracker.update` (lines 667-682).  The comparison is
`primary_metric > self.best_metrics.get("sharpe_ratio", float("-inf"))`: a
finite float always exceeds `-inf`, so a missing `sharpe_ratio` key in the
retained bundle makes the comparison true. -/
def MetricsTracker.update (t : MetricsTracker) (epoch : ℕ)
    (metrics : List (String × ℚ)) : MetricsTracker :=
  let primary := primaryMetricOf metrics
  let replace : Bool := t.best_metrics.isEmpty ||
    (match t.best_metrics.lookup "sharpe_ratio" with
     | some s => decide (s < primary)
     | none => true)
  { epoch_metrics := t.epoch_metrics ++ [(epoch, metrics)]
    best_metrics := if replace then metrics else t.best_metrics
    best_epoch := if replace then epoch else t.best_epoch }

/-- Fold a sequence of `(epoch, metrics)` updates through the tracker. -/
def runUpdates (t : MetricsTracker) (ms : List (ℕ × List (String × ℚ))) : MetricsTracker :=
  ms.foldl (fun acc em => acc.update em.1 em.2) t

/-- Value of the `sharpe_ratio` key of a bundle, 0 when absent. -/
def sharpeOf (metrics : List (String × ℚ)) : ℚ :=
  (metrics.lookup "sharpe_ratio").getD 0

/-! ## Prediction heads (`RiskAwareRecommendationHead`, `transformer_model.py`)

Each head is `Linear → ReLU → Dropout → Linear` (dropout is the identity in
evaluation mode).  The forward pass (lines 168-190) applies softmax to the
recommendation, risk and regime logits and sigmoid to the confidence logit. -/

/-- Torch `nn.Linear`: an affine map given by a weight matrix and a bias. -/
noncomputable def linear {m n : ℕ} (W : Fin m → Fin n → ℝ) (b : Fin m → ℝ)
    (x : Fin n → ℝ) : Fin m → ℝ :=
  fun i => (∑ j, W i j * x j) + b i

/-- Torch `nn.ReLU`. -/
noncomputable def relu (x : ℝ) : ℝ := max x 0

/-- A two-layer head `Linear → ReLU → Dropout → Linear`; dropout is the
identity at evaluation time. -/
noncomputable def mlp2 {n h m : ℕ} (W1 : Fin h → Fin n → ℝ) (b1 : Fin h → ℝ)
    (W2 : Fin m → Fin h → ℝ) (b2 : Fin m → ℝ) (x : Fin n → ℝ) : Fin m → ℝ :=
  linear W2 b2 (fun i => relu (linear W1 b1 x i))

/-- Torch `F.softmax` along the class axis. -/
noncomputable def softmax {n : ℕ} (x : Fin n → ℝ) : Fin n → ℝ :=
  fun i => Real.exp (x i) / ∑ j, Real.exp (x j)

/-- Torch `torch.sigmoid`. -/
noncomputable def sigmoid (x : ℝ) : ℝ := 1 / (1 + Real.exp (-x))

/-- Weights of the four heads of `RiskAwareRecommendationHead.__init__`:
recommendation `d → d/2 → A`, confidence `d → d/4 → 1`, risk `d → d/4 → R`,
regime `d → d/4 → 3`. -/
structure RiskAwareHeadParams (d A R : ℕ) where
  recW1 : Fin (d / 2) → Fin d → ℝ
  recB1 : Fin (d / 2) → ℝ
  recW2 : Fin A → Fin (d / 2) → ℝ
  recB2 : Fin A → ℝ
  confW1 : Fin (d / 4) → Fin d → ℝ
  confB1 : Fin (d / 4) → ℝ
  confW2 : Fin 1 → Fin (d / 4) → ℝ
  confB2 : Fin 1 → ℝ
  riskW1 : Fin (d / 4) → Fin d → ℝ
  riskB1 : Fin (d / 4) → ℝ
  riskW2 : Fin R → Fin (d / 4) → ℝ
  riskB2 : Fin R → ℝ
  regimeW1 : Fin (d / 4) → Fin d → ℝ
  regimeB1 : Fin (d / 4) → ℝ
  regimeW2 : Fin 3 → Fin (d / 4) → ℝ
  regimeB2 : Fin 3 → ℝ

/-- Output bundle of one forward pass of the head for one sample. -/
structure HeadOutputs (A R : ℕ) where
  recommendations : Fin A → ℝ
  confidence : ℝ
  riskScores : Fin R → ℝ
  regimeProbs : Fin 3 → ℝ
  rawLogits : Fin A → ℝ

/-- Python `RiskAwareRecommendationHead.forward` (lines 168-190) on one
`d_model`-wide final representation. -/
noncomputable def RiskAwareRecommendationHead.forward {d A R : ℕ}
    (p : RiskAwareHeadParams d A R) (x : Fin d → ℝ) : HeadOutputs A R :=
  let raw_recommendations := mlp2 p.recW1 p.recB1 p.recW2 p.recB2 x
  { recommendations := softmax raw_recommendations
    confidence := sigmoid (mlp2 p.confW1 p.confB1 p.confW2 p.confB2 x 0)
    riskScores := softmax (mlp2 p.riskW1 p.riskB1 p.riskW2 p.riskB2 x)
    regimeProbs := softmax (mlp2 p.regimeW1 p.regimeB1 p.regimeW2 p.regimeB2 x)
    rawLogits := raw_recommendations }

/-! ## Financial performance metrics
(`FinancialMetrics.calculate_financial_performance_metrics`, `metrics.py`
lines 165-318).  Return series entries are `Option ℝ`, `none` standing for
NaN; the metrics dict is an association list in insertion order. -/

/-- Python `portfolio_returns[~np.isnan(portfolio_returns)]`. -/
def dropNaN (xs : List (Option ℝ)) : List ℝ := xs.filterMap id

/-- Python `np.mean`. -/
noncomputable def npMean (xs : List ℝ) : ℝ := xs.sum / (xs.length : ℝ)

/-- Python `np.std` (population standard deviation, `ddof = 0`). -/
noncomputable def npStd (xs : List ℝ) : ℝ :=
  Real.sqrt (npMean (xs.map (fun x => (x - npMean xs) ^ 2)))

/-- Python `np.cumprod`. -/
noncomputable def npCumprod (xs : List ℝ) : List ℝ := (xs.scanl (· * ·) 1).tail

/-- Python `np.maximum.accumulate`. -/
noncomputable def npMaximumAccumulate (xs : List ℝ) : List ℝ :=
  match xs with
  | [] => []
  | h :: t => t.scanl max h

/-- Python `np.min` of a nonempty array (0 for the empty array, unreached). -/
noncomputable def npMin (xs : List ℝ) : ℝ :=
  match xs with
  | [] => 0
  | h :: t => t.foldl min h

/-- Python `np.percentile` with the default linear interpolation: sort, take
the virtual index `(p/100)·(n−1)` and interpolate between its neighbours. -/
noncomputable def npPercentile (xs : List ℝ) (p : ℝ) : ℝ :=
  let s := xs.insertionSort (· ≤ ·)
  let pos := p / 100 * ((s.length : ℝ) - 1)
  let lo := (Int.floor pos).toNat
  let frac := pos - ((Int.floor pos : ℤ) : ℝ)
  s.getD lo 0 + frac * (s.getD (lo + 1) 0 - s.getD lo 0)

/-- Trading-cost adjustment (lines 218-225): turnover is the rowwise sum of
`|np.diff(weights, axis=0)|` and `turnover * trading_cost` is subtracted from
`portfolio_returns[1:]` (numpy requires `len(weights) = len(returns)` here). -/
noncomputable def applyTradingCosts (trading_cost : ℝ) (portfolio_returns : List ℝ)
    (weights : List (List ℝ)) : List ℝ :=
  let turnover := (weights.zip weights.tail).map
    (fun ab => ((ab.2.zip ab.1).map (fun xy => |xy.1 - xy.2|)).sum)
  match portfolio_returns with
  | [] => []
  | h :: t => h :: (t.zip turnover).map (fun ru => ru.1 - ru.2 * trading_cost)

/-- The zero-filled default bundle returned when no valid portfolio returns
remain (lines 204-215). -/
def financialEmptyDefault : List (String × PyFloat) :=
  [("total_return", .fin 0), ("annualized_return", .fin 0), ("volatility", .fin 0),
   ("sharpe_ratio", .fin 0), ("max_drawdown", .fin 0), ("calmar_ratio", .fin 0),
   ("var_95", .fin 0), ("var_99", .fin 0)]

/-- Python `calculate_financial_performance_metrics` for a 1-D return series
(lines 189-318 minus the 2-D reduction), with NaN entries as `none`. -/
noncomputable def calculate_financial_performance_metrics
    (risk_free_rate trading_cost : ℝ) (returns : List (Option ℝ))
    (weights : Option (List (List ℝ))) (benchmark_returns : Option (List (Option ℝ)))
    (trading_costs : Bool) : List (String × PyFloat) :=
  let portfolio0 := dropNaN returns
  if portfolio0.isEmpty then financialEmptyDefault
  else
    let portfolio :=
      match weights with
      | some w =>
          if trading_costs ∧ 1 < w.length then applyTradingCosts trading_cost portfolio0 w
          else portfolio0
      | none => portfolio0
    let total_return := (portfolio.map (fun r => 1 + r)).prod - 1
    let annualized_return := (1 + total_return) ^ ((252 : ℝ) / (portfolio.length : ℝ)) - 1
    let volatility := npStd portfolio * Real.sqrt 252
    let excess_return := annualized_return - risk_free_rate
    let sharpe := if volatility ≠ 0 then excess_return / volatility else 0
    let cumulative_returns := npCumprod (portfolio.map (fun r => 1 + r))
    let running_max := npMaximumAccumulate cumulative_returns
    let drawdowns := (cumulative_returns.zip running_max).map
      (fun cm => (cm.1 - cm.2) / cm.2)
    let max_drawdown := npMin drawdowns
    let calmar := if max_drawdown ≠ 0 then annualized_return / |max_drawdown| else 0
    let var95 := npPercentile portfolio 5
    let var99 := npPercentile portfolio 1
    let cvar95 := npMean (portfolio.filter (fun r => decide (r ≤ var95)))
    let benchBlock :=
      match benchmark_returns with
      | some b =>
          let bench := dropNaN b
          let min_length := min portfolio.length bench.length
          if 1 < min_length then
            let port_ret := portfolio.take min_length
            let bench_ret := bench.take min_length
            let excess_returns := (port_ret.zip bench_ret).map (fun pb => pb.1 - pb.2)
            let tracking_error := npStd excess_returns * Real.sqrt 252
            let info := if tracking_error ≠ 0
              then npMean excess_returns * 252 / tracking_error else 0
            [("information_ratio", PyFloat.fin info),
             ("tracking_error", PyFloat.fin tracking_error)]
          else []
      | none => []
    let downside_returns := portfolio.filter (fun r => decide (r < 0))
    let sortinoVal : PyFloat :=
      if downside_returns.isEmpty then
        (if 0 < excess_return then PyFloat.pinf else PyFloat.fin 0)
      else
        let downside_deviation := npStd downside_returns * Real.sqrt 252
        PyFloat.fin (if downside_deviation ≠ 0 then excess_return / downside_deviation else 0)
    [("total_return", .fin total_return), ("annualized_return", .fin annualized_return),
     ("volatility", .fin volatility), ("sharpe_ratio", .fin sharpe),
     ("max_drawdown", .fin max_drawdown), ("calmar_ratio", .fin calmar),
     ("var_95", .fin var95), ("var_99", .fin var99), ("cvar_95", .fin cvar95)]
      ++ benchBlock ++ [("sortino_ratio", sortinoVal)]

/-! ## Error fallback dictionaries of the metrics groups (`metrics.py`)

Each metrics group wraps its computation in `try`/`except`; the dictionaries
below are exactly what the `except` handlers return or merge when the group's
computation raises. -/

/-- Fallback of the regression block of `calculate_prediction_metrics`
(lines 92-101): `mse`, `mae`, `rmse` default to `float("inf")`, `r2` to 0. -/
def predictionRegressionErrorDefaults : List (String × PyFloat) :=
  [("mse", .pinf), ("mae", .pinf), ("rmse", .pinf), ("r2", .fin 0)]

/-- Fallback of the classification block of `calculate_prediction_metrics`
(lines 135-139). -/
def predictionClassificationErrorDefaults : List (String × PyFloat) :=
  [("accuracy", .fin 0), ("precision", .fin 0), ("recall", .fin 0), ("f1", .fin 0)]

/-- Fallback of the confidence block of `calculate_prediction_metrics`
(lines 158-160). -/
def predictionConfidenceErrorDefaults : List (String × PyFloat) :=
  [("confidence_accuracy_corr", .fin 0), ("avg_confidence", .fin 0)]

/-- Fallback returned by `calculate_financial_performance_metrics` on error
(lines 301-315). -/
def financialErrorDefaults : List (String × PyFloat) :=
  [("total_return", .fin 0), ("annualized_return", .fin 0), ("volatility", .fin 0),
   ("sharpe_ratio", .fin 0), ("max_drawdown", .fin 0), ("calmar_ratio", .fin 0),
   ("var_95", .fin 0), ("var_99", .fin 0), ("cvar_95", .fin 0), ("sortino_ratio", .fin 0)]

/-- Fallback of `calculate_recommendation_metrics` on error (lines 423-435),
parameterised by the requested `k_values`. -/
def recommendationErrorDefaults (k_values : List ℕ) : List (String × PyFloat) :=
  (k_values.map (fun k => (s!"precision_at_{k}", PyFloat.fin 0)))
    ++ [("ndcg_20", .fin 0), ("hit_rate_5", .fin 0), ("hit_rate_10", .fin 0),
        ("mrr", .fin 0)]

/-- Fallback of `calculate_risk_metrics` on error (lines 489-498). -/
def riskErrorDefaults : List (String × PyFloat) :=
  [("avg_risk_score", .fin 0), ("risk_score_std", .fin 0),
   ("risk_score_entropy", .fin 0), ("risk_concentration", .fin 0)]

/-- Fallback of `calculate_regime_metrics` on error (lines 569-579): the
per-class ratios default to 0.33 each. -/
noncomputable def regimeErrorDefaults : List (String × PyFloat) :=
  [("avg_regime_confidence", .fin 0), ("regime_entropy", .fin 0),
   ("regime_bull_ratio", .fin (33/100)), ("regime_bear_ratio", .fin (33/100)),
   ("regime_sideways_ratio", .fin (33/100))]

/-! ## Forward pass of `FinancialTransformerRecommendationEngine`
(`transformer_model.py` lines 266-324)

The numeric content of the transformer stack is irrelevant to the control-flow
claims; the embedding records the sequence of stages `forward` executes, in
source order, together with where the pass fails on a degenerate input.  The
source performs no validation of the sequence length: the causal mask is
always constructed, and with `seq_len = 0` the pass fails only afterwards,
when `transformer_output[:, -1, :]` selects the final timestep of an empty
time dimension. -/

inductive ForwardStage : Type where
  | featureEncoding : ForwardStage
  | positionalEncoding : ForwardStage
  | maskConstruction : ForwardStage
  | transformerEncoding : ForwardStage
  | finalTimestepSelection : ForwardStage
  | predictionHeads : ForwardStage
deriving DecidableEq

/-- Python `create_attention_mask` (lines 266-270):
`torch.triu(torch.ones(n, n), diagonal=1)` masked to `-inf`, i.e. `-inf`
strictly above the diagonal and 0 elsewhere. -/
def createAttentionMask (n : ℕ) : Fin n → Fin n → PyFloat :=
  fun i j => if (i : ℕ) < (j : ℕ) then .ninf else .fin 0

/-- Python negative indexing `seq[-1]` on the time axis: the last element, an
index error when the axis is empty. -/
def selectFinalTimestep {α : Type} (seq : List α) : Except String α :=
  match seq.getLast? with
  | some v => .ok v
  | none => .error "index -1 is out of bounds for dimension 1 with size 0"

/-- Stages executed by `FinancialTransformerRecommendationEngine.forward`
(lines 293-324) for an input of the given sequence length, and the error the
pass produces, if any.  No stage inspects the sequence length before the mask
is built. -/
def FinancialTransformerRecommendationEngine.forward (seqLen : ℕ) :
    List ForwardStage × Option String :=
  let prefixStages := [ForwardStage.featureEncoding, ForwardStage.positionalEncoding,
    ForwardStage.maskConstruction, ForwardStage.transformerEncoding]
  match selectFinalTimestep (List.range seqLen) with
  | .ok _ => (prefixStages ++ [ForwardStage.finalTimestepSelection,
      ForwardStage.predictionHeads], none)
  | .error e => (prefixStages, some e)

/-! ## `predict_step` (`transformer_model.py` lines 326-361)

The forward outputs are taken as given (any batch of head outputs);
`predict_step` divides the raw logits by the temperature, re-applies softmax,
and keeps the `top_k` assets per sample.  `torch.topk` raises when `k`
exceeds the size of the last dimension and returns its values sorted in
descending order. -/

structure ModelOutputs (A R : ℕ) where
  recommendations : List (Fin A → ℝ)
  confidence : List ℝ
  riskScores : List (Fin R → ℝ)
  regimeProbs : List (Fin 3 → ℝ)
  rawLogits : List (Fin A → ℝ)

structure PredictOutput (A R : ℕ) where
  top_k_assets : List (List (Fin A))
  top_k_probabilities : List (List ℝ)
  confidence : List ℝ
  riskScores : List (Fin R → ℝ)
  regimeProbs : List (Fin 3 → ℝ)

/-- All indices of a vector, sorted by value in descending order (ties keep
the lower index first). -/
noncomputable def topkOrder {A : ℕ} (p : Fin A → ℝ) : List (Fin A) :=
  (List.finRange A).insertionSort (fun i j => p j ≤ p i)

/-- Python `torch.topk(x, k, dim=-1)` along a length-`A` axis: the `k` largest
values with their indices, sorted descending; raises when `k > A`. -/
noncomputable def topk {A : ℕ} (p : Fin A → ℝ) (k : ℕ) :
    Except String (List ℝ × List (Fin A)) :=
  if k ≤ A then
    let idxs := (topkOrder p).take k
    .ok (idxs.map p, idxs)
  else .error "selected index k out of range"

/-- Python `predict_step` (lines 326-361) given the forward outputs. -/
noncomputable def predict_step {A R : ℕ} (outputs : ModelOutputs A R)
    (temperature : ℝ) (top_k : ℕ) : Except String (PredictOutput A R) :=
  let scaled_logits := outputs.rawLogits.map (fun row i => row i / temperature)
  let scaled_probs := scaled_logits.map softmax
  if top_k ≤ A then
    .ok { top_k_assets := scaled_probs.map (fun p => (topkOrder p).take top_k)
          top_k_probabilities :=
            scaled_probs.map (fun p => ((topkOrder p).take top_k).map p)
          confidence := outputs.confidence
          riskScores := outputs.riskScores
          regimeProbs := outputs.regimeProbs }
  else .error "selected index k out of range"

/-- Correctness statement for a successful `predict_step`: the call returns a
bundle whose confidence, risk scores and regime probabilities are the
unmodified forward outputs, with one entry per sample of exactly `top_k`
asset indices carrying their temperature-scaled softmax probabilities, listed
in descending probability order. -/
def PredictStepOk {A R : ℕ} (outputs : ModelOutputs A R) (temperature : ℝ)
    (top_k : ℕ) : Prop :=
  ∃ r : PredictOutput A R,
    predict_step outputs temperature top_k = .ok r ∧
    r.confidence = outputs.confidence ∧
    r.riskScores = outputs.riskScores ∧
    r.regimeProbs = outputs.regimeProbs ∧
    r.top_k_assets.length = outputs.rawLogits.length ∧
    (∀ l ∈ r.top_k_assets, l.length = top_k) ∧
    r.top_k_probabilities = List.zipWith
      (fun row idxs => idxs.map (softmax (fun j => row j / temperature)))
      outputs.rawLogits r.top_k_assets ∧
    (∀ l ∈ r.top_k_probabilities, List.Sorted (fun a b => b ≤ a) l)

/-- A concrete one-sample forward-output bundle over 2 assets and 1 risk
factor, used to exercise `predict_step`. -/
noncomputable def sampleOutputs : ModelOutputs 2 1 :=
  { recommendations := []
    confidence := [1/2]
    riskScores := []
    regimeProbs := []
    rawLogits := [fun j => ((j : ℕ) : ℝ)] }

/-! ## Theorems -/

/-! ### Helper lemmas -/

theorem weightKey_recommendation : weightKey "recommendation_loss" = "recommendation" := rfl

theorem weightKey_confidence : weightKey "confidence_loss" = "confidence" := rfl

theorem weightKey_risk : weightKey "risk_loss" = "risk" := rfl

theorem weightKey_regime : weightKey "regime_loss" = "regime" := rfl

theorem defaultWeights_lookup_recommendation :
    defaultLossWeights.lookup "recommendation" = some 1 := rfl

theorem defaultWeights_lookup_confidence :
    defaultLossWeights.lookup "confidence" = some (3/10) := rfl

theorem defaultWeights_lookup_risk :
    defaultLossWeights.lookup "risk" = some (2/10) := rfl

theorem defaultWeights_lookup_regime :
    defaultLossWeights.lookup "regime" = some (1/10) := rfl

/-- Claim C2: for every model-output/target batch, the total loss equals the
weighted sum of the present component losses with default weights
{recommendation: 1.0, confidence: 0.3, risk: 0.2, regime: 0.1}; in particular,
with those default weights and component losses {1.0, 2.0, 3.0, 4.0} the total
loss equals 2.6. -/
theorem total_loss_weighted_sum :
    (∀ L : LossComponents,
      computeTotalLoss defaultLossWeights L =
        1 * L.recommendation
          + (match L.confidence with | some c => (3/10) * c | none => 0)
          + (match L.risk with | some r => (2/10) * r | none => 0)
          + (match L.regime with | some r => (1/10) * r | none => 0)) ∧
    computeTotalLoss defaultLossWeights ⟨1, some 2, some 3, some 4⟩ = 26/10 := by
  have base : ∀ L : LossComponents,
      computeTotalLoss defaultLossWeights L =
        1 * L.recommendation
          + (match L.confidence with | some c => (3/10) * c | none => 0)
          + (match L.risk with | some r => (2/10) * r | none => 0)
          + (match L.regime with | some r => (1/10) * r | none => 0) := by
    rintro ⟨rec, conf, risk, regime⟩
    cases conf <;> cases risk <;> cases regime <;>
      simp [computeTotalLoss, lossEntries, weightKey_recommendation, weightKey_confidence,
        weightKey_risk, weightKey_regime, defaultWeights_lookup_recommendation,
        defaultWeights_lookup_confidence, defaultWeights_lookup_risk,
        defaultWeights_lookup_regime]
  refine ⟨base, ?_⟩
  rw [base ⟨1, some 2, some 3, some 4⟩]
  norm_num

/-- Claim C3: the regime label inferred per sample is bull (0) exactly when
the sample's mean > 0.001 and std < 0.03, bear (1) exactly when mean < −0.001
and std > 0.02, and sideways (2) in every other case; mean 0.005 with
std 0.01 yields bull, mean −0.005 with std 0.05 yields bear, mean 0.0 with
std 0.01 yields sideways. -/
theorem regime_label_thresholds :
    (∀ target_mean target_std : ℚ,
      (regimeLabel target_mean target_std = 0 ↔
        (1/1000 < target_mean ∧ target_std < 3/100)) ∧
      (regimeLabel target_mean target_std = 1 ↔
        (target_mean < -(1/1000) ∧ 1/50 < target_std)) ∧
      (regimeLabel target_mean target_std = 2 ↔
        ¬((1/1000 < target_mean ∧ target_std < 3/100) ∨
          (target_mean < -(1/1000) ∧ 1/50 < target_std)))) ∧
    regimeLabel (5/1000) (1/100) = 0 ∧
    regimeLabel (-(5/1000)) (5/100) = 1 ∧
    regimeLabel 0 (1/100) = 2 := by
  refine ⟨fun m s => ?_, by norm_num [regimeLabel], by norm_num [regimeLabel],
    by norm_num [regimeLabel]⟩
  by_cases hb : 1/1000 < m ∧ s < 3/100
  · have hr : ¬(m < -(1/1000) ∧ 1/50 < s) := by
      rintro ⟨h1, -⟩; linarith [hb.1]
    have hno : ¬¬((1/1000 < m ∧ s < 3/100) ∨ (m < -(1/1000) ∧ 1/50 < s)) :=
      not_not_intro (Or.inl hb)
    simp only [regimeLabel]
    rw [if_neg hno, if_neg hr, if_pos hb]
    exact ⟨iff_of_true rfl hb, iff_of_false (by omega) hr, iff_of_false (by omega) hno⟩
  · by_cases hr : m < -(1/1000) ∧ 1/50 < s
    · have hno : ¬¬((1/1000 < m ∧ s < 3/100) ∨ (m < -(1/1000) ∧ 1/50 < s)) :=
        not_not_intro (Or.inr hr)
      simp only [regimeLabel]
      rw [if_neg hno, if_pos hr]
      exact ⟨iff_of_false (by omega) hb, iff_of_true rfl hr, iff_of_false (by omega) hno⟩
    · have hno : ¬((1/1000 < m ∧ s < 3/100) ∨ (m < -(1/1000) ∧ 1/50 < s)) := by
        rintro (h | h)
        · exact hb h
        · exact hr h
      simp only [regimeLabel]
      rw [if_pos hno]
      exact ⟨iff_of_false (by omega) hb, iff_of_false (by omega) hr, iff_of_true rfl hno⟩

theorem foldl_add_map {β : Type} (f : β → ℚ) (l : List β) (a : ℚ) :
    l.foldl (fun acc b => acc + f b) a = a + (l.map f).sum := by
  induction l generalizing a with
  | nil => simp
  | cons h t ih => simp [ih, add_assoc]

theorem argsortDesc_length (xs : List ℚ) : (argsortDesc xs).length = xs.length := by
  simp [argsortDesc, List.length_insertionSort]

theorem sampleRankingLoss_eq_rho (p t : List ℚ) :
    sampleRankingLoss p t = 1 - rhoSpec p t := by
  simp only [sampleRankingLoss, rhoSpec, argsortDesc_length]

/-- Claim C4: the recommendation loss equals MSE plus 0.1 times the batch
average of 1 − ρ, with ρ the Spearman-style statistic over the descending
argsorts of each sample's predicted and target vectors, the whole multiplied
by mean(1 + 0.5·confidence) when confidence is supplied; concretely, for the
one-sample batch with prediction [1, 0] and target [0, 1] (no confidence) the
loss is 1 + 0.1·2 = 1.2. -/
theorem recommendation_loss_formula :
    (∀ (predictions targets : List (List ℚ)) (confidence : Option (List ℚ)),
      calculate_recommendation_loss predictions targets confidence =
        recommendationLossSpec predictions targets confidence) ∧
    calculate_recommendation_loss [[1, 0]] [[0, 1]] none = 6/5 := by
  have base : ∀ (predictions targets : List (List ℚ)) (confidence : Option (List ℚ)),
      calculate_recommendation_loss predictions targets confidence =
        recommendationLossSpec predictions targets confidence := by
    intro p t c
    cases c <;>
      simp only [calculate_recommendation_loss, recommendationLossSpec, foldl_add_map,
        sampleRankingLoss_eq_rho, zero_add]
  refine ⟨base, ?_⟩
  norm_num [calculate_recommendation_loss, mseLoss, sampleRankingLoss, argsortDesc,
    List.insertionSort, List.orderedInsert]

/-- Claim C7 (code evaluation): for the one-sample batch with recommendation
scores [0.5, 0.1, 0.3] and targets [0.9, 0.1, 0.2], the best actual asset is
index 0, the top-ranked recommendation; the specification's mean reciprocal
rank is therefore 1, but the source's `rec_ranks` array — ascending ranks
reversed by `[::-1]` rather than converted to descending ranks — yields 1/2. -/
theorem mrr_uses_reversed_ranks :
    calculate_mrr [[1/2, 1/10, 3/10]] [[9/10, 1/10, 1/5]] = 1/2 ∧
    mrrSpec [[1/2, 1/10, 3/10]] [[9/10, 1/10, 1/5]] = 1 ∧
    npArgmax [(9:ℚ)/10, 1/10, 1/5] = 0 := by
  refine ⟨?_, ?_, ?_⟩ <;>
    norm_num [calculate_mrr, mrrSpec, recRanks, argsortAsc, argsortDesc, npArgmax,
      descPosition, List.insertionSort, List.orderedInsert, List.enum, List.enumFrom,
      List.indexOf, List.findIdx, List.findIdx.go]

/-- Claim C6 (counterexample): on a computation error in the regression block
of the prediction metrics group, the fallback maps `mse` to `float("inf")`,
not 0.0. -/
theorem prediction_regression_fallback_not_zero :
    predictionRegressionErrorDefaults.lookup "mse" = some PyFloat.pinf ∧
    PyFloat.pinf ≠ PyFloat.fin 0 :=
  ⟨rfl, fun h => PyFloat.noConfusion h⟩

/-- Claim C6 (amended): on a computation error within a metrics group the
handler supplies that group's fixed default dictionary, whose entries are all
0.0 — except the prediction group's regression block, whose `mse`, `mae` and
`rmse` default to `float("inf")` (`r2` to 0.0) — and the regime group's
per-class ratios default to 0.33 each. -/
theorem metrics_error_fallback_defaults :
    (∀ kv ∈ financialErrorDefaults, kv.2 = PyFloat.fin 0) ∧
    (∀ kv ∈ riskErrorDefaults, kv.2 = PyFloat.fin 0) ∧
    (∀ kv ∈ predictionClassificationErrorDefaults, kv.2 = PyFloat.fin 0) ∧
    (∀ kv ∈ predictionConfidenceErrorDefaults, kv.2 = PyFloat.fin 0) ∧
    (∀ (k_values : List ℕ), ∀ kv ∈ recommendationErrorDefaults k_values,
      kv.2 = PyFloat.fin 0) ∧
    (∀ kv ∈ predictionRegressionErrorDefaults,
      kv.2 = PyFloat.pinf ∨ (kv.1 = "r2" ∧ kv.2 = PyFloat.fin 0)) ∧
    (∀ kv ∈ regimeErrorDefaults,
      kv.2 = PyFloat.fin 0 ∨
        (kv.1 ∈ ["regime_bull_ratio", "regime_bear_ratio", "regime_sideways_ratio"] ∧
          kv.2 = PyFloat.fin (33/100))) := by
  refine ⟨?_, ?_, ?_, ?_, ?_, ?_, ?_⟩
  · intro kv h
    fin_cases h <;> rfl
  · intro kv h
    fin_cases h <;> rfl
  · intro kv h
    fin_cases h <;> rfl
  · intro kv h
    fin_cases h <;> rfl
  · intro k_values kv h
    rcases List.mem_append.mp h with hm | hm
    · obtain ⟨k, -, rfl⟩ := List.mem_map.mp hm
      rfl
    · fin_cases hm <;> rfl
  · intro kv h
    fin_cases h <;> simp
  · intro kv h
    fin_cases h <;> simp

/-- Claim C6 (witness for the amended claim): concrete fallback entries. -/
theorem metrics_error_fallback_defaults_witness :
    (("total_return", PyFloat.fin 0) ∈ financialErrorDefaults ∧
      (("total_return", PyFloat.fin 0) : String × PyFloat).2 = PyFloat.fin 0) ∧
    (("mse", PyFloat.pinf) ∈ predictionRegressionErrorDefaults ∧
      ((("mse", PyFloat.pinf) : String × PyFloat).2 = PyFloat.pinf ∨
        (("mse", PyFloat.pinf) : String × PyFloat).1 = "r2" ∧
          (("mse", PyFloat.pinf) : String × PyFloat).2 = PyFloat.fin 0)) ∧
    (("regime_bull_ratio", PyFloat.fin (33/100)) ∈ regimeErrorDefaults ∧
      ((("regime_bull_ratio", PyFloat.fin (33/100)) : String × PyFloat).2 = PyFloat.fin 0 ∨
        (("regime_bull_ratio", PyFloat.fin (33/100)) : String × PyFloat).1 ∈
            ["regime_bull_ratio", "regime_bear_ratio", "regime_sideways_ratio"] ∧
          (("regime_bull_ratio", PyFloat.fin (33/100)) : String × PyFloat).2 =
            PyFloat.fin (33/100))) :=
  ⟨⟨by simp [financialErrorDefaults],
    metrics_error_fallback_defaults.1 _ (by simp [financialErrorDefaults])⟩,
   ⟨by simp [predictionRegressionErrorDefaults],
    (metrics_error_fallback_defaults.2.2.2.2.2.1) _
      (by simp [predictionRegressionErrorDefaults])⟩,
   ⟨by simp [regimeErrorDefaults],
    (metrics_error_fallback_defaults.2.2.2.2.2.2) _ (by simp [regimeErrorDefaults])⟩⟩

/-- Claim C5: a return series of length 0, or all of whose entries are NaN,
makes `calculate_financial_performance_metrics` return the zero-filled default
bundle rather than raising. -/
theorem financial_metrics_empty_default (risk_free_rate trading_cost : ℝ)
    (returns : List (Option ℝ)) (weights : Option (List (List ℝ)))
    (benchmark_returns : Option (List (Option ℝ))) (trading_costs : Bool)
    (h : dropNaN returns = []) :
    calculate_financial_performance_metrics risk_free_rate trading_cost returns
      weights benchmark_returns trading_costs = financialEmptyDefault := by
  simp [calculate_financial_performance_metrics, h]

/-- Claim C5 (witness): an all-NaN two-entry series returns the default. -/
theorem financial_metrics_empty_default_witness :
    dropNaN [none, none] = [] ∧
    calculate_financial_performance_metrics 0 0 [none, none] none none true =
      financialEmptyDefault :=
  ⟨rfl, financial_metrics_empty_default 0 0 [none, none] none none true rfl⟩

/-- Claim C8 (code evaluation): a forward pass with sequence length 0 is not
rejected before mask construction — the mask-construction stage runs, the
degenerate 0×0 causal mask is built, and the failure surfaces only later, at
the final-timestep selection (which is never reached as a completed stage). -/
theorem seq_len_zero_builds_mask :
    ForwardStage.maskConstruction ∈ (FinancialTransformerRecommendationEngine.forward 0).1 ∧
    (FinancialTransformerRecommendationEngine.forward 0).2 =
      some "index -1 is out of bounds for dimension 1 with size 0" ∧
    ForwardStage.finalTimestepSelection ∉
      (FinancialTransformerRecommendationEngine.forward 0).1 ∧
    (FinancialTransformerRecommendationEngine.forward 1).2 = none := by
  refine ⟨by decide, rfl, by decide, rfl⟩

theorem sum_exp_pos {n : ℕ} (x : Fin (n + 1) → ℝ) : 0 < ∑ j, Real.exp (x j) :=
  Finset.sum_pos (fun _ _ => Real.exp_pos _) Finset.univ_nonempty

theorem softmax_nonneg {n : ℕ} (x : Fin (n + 1) → ℝ) (i : Fin (n + 1)) :
    0 ≤ softmax x i :=
  div_nonneg (Real.exp_nonneg _) (le_of_lt (sum_exp_pos x))

theorem softmax_sum_eq_one {n : ℕ} (x : Fin (n + 1) → ℝ) :
    ∑ i, softmax x i = 1 := by
  unfold softmax
  rw [← Finset.sum_div]
  exact div_self (ne_of_gt (sum_exp_pos x))

theorem sigmoid_nonneg (x : ℝ) : 0 ≤ sigmoid x :=
  div_nonneg zero_le_one (by positivity)

theorem sigmoid_le_one (x : ℝ) : sigmoid x ≤ 1 := by
  unfold sigmoid
  rw [div_le_one (by positivity)]
  linarith [Real.exp_pos (-x)]

/-- Claim C1: for every real-valued `d_model`-wide final representation and
any head weights, the recommendations, risk scores and regime probabilities
are non-negative and each sums to 1 within 1e-5 along its class axis, and the
confidence scalar lies in [0, 1]. -/
theorem head_outputs_normalized (d A R : ℕ)
    (p : RiskAwareHeadParams d (A + 1) (R + 1)) (x : Fin d → ℝ) :
    (∀ i, 0 ≤ (RiskAwareRecommendationHead.forward p x).recommendations i) ∧
    |(∑ i, (RiskAwareRecommendationHead.forward p x).recommendations i) - 1|
        ≤ 1/100000 ∧
    (∀ i, 0 ≤ (RiskAwareRecommendationHead.forward p x).riskScores i) ∧
    |(∑ i, (RiskAwareRecommendationHead.forward p x).riskScores i) - 1|
        ≤ 1/100000 ∧
    (∀ i, 0 ≤ (RiskAwareRecommendationHead.forward p x).regimeProbs i) ∧
    |(∑ i, (RiskAwareRecommendationHead.forward p x).regimeProbs i) - 1|
        ≤ 1/100000 ∧
    0 ≤ (RiskAwareRecommendationHead.forward p x).confidence ∧
    (RiskAwareRecommendationHead.forward p x).confidence ≤ 1 := by
  unfold RiskAwareRecommendationHead.forward
  refine ⟨fun i => softmax_nonneg _ i, ?_, fun i => softmax_nonneg _ i, ?_,
    fun i => softmax_nonneg (n := 2) _ i, ?_, sigmoid_nonneg _, sigmoid_le_one _⟩ <;>
    simp [softmax_sum_eq_one, softmax_sum_eq_one (n := 2)]

theorem primaryMetricOf_of_sharpe {m : List (String × ℚ)} {v : ℚ}
    (h : m.lookup "sharpe_ratio" = some v) : primaryMetricOf m = v := by
  simp [primaryMetricOf, h]

theorem sharpeOf_of_lookup {m : List (String × ℚ)} {v : ℚ}
    (h : m.lookup "sharpe_ratio" = some v) : sharpeOf m = v := by
  simp [sharpeOf, h]

theorem update_best_of_sharpe (t : MetricsTracker) (e : ℕ) (m : List (String × ℚ))
    (s : ℚ) (hs : t.best_metrics.lookup "sharpe_ratio" = some s) :
    (t.update e m).best_metrics =
      if s < primaryMetricOf m then m else t.best_metrics := by
  have hne : t.best_metrics ≠ [] := by
    intro h
    rw [h] at hs
    simp at hs
  have h1 : t.best_metrics.isEmpty = false := by
    cases h' : t.best_metrics.isEmpty
    · rfl
    · exact absurd (List.isEmpty_iff.mp h') hne
  unfold MetricsTracker.update
  simp only [hs, h1, Bool.false_or]
  by_cases hlt : s < primaryMetricOf m <;> simp [hlt]

theorem update_best_of_no_sharpe (t : MetricsTracker) (e : ℕ) (m : List (String × ℚ))
    (hs : t.best_metrics.lookup "sharpe_ratio" = none) :
    (t.update e m).best_metrics = m := by
  unfold MetricsTracker.update
  simp [hs]

theorem runUpdates_sharpe_aux (ms : List (ℕ × List (String × ℚ))) :
    ∀ (t : MetricsTracker) (s : ℚ),
      t.best_metrics.lookup "sharpe_ratio" = some s →
      (∀ m ∈ ms, ∃ v, (m.2).lookup "sharpe_ratio" = some v) →
      ((runUpdates t ms).best_metrics = t.best_metrics ∨
        (runUpdates t ms).best_metrics ∈ ms.map Prod.snd) ∧
      sharpeOf t.best_metrics ≤ sharpeOf (runUpdates t ms).best_metrics ∧
      (∀ m ∈ ms, sharpeOf m.2 ≤ sharpeOf (runUpdates t ms).best_metrics) := by
  induction ms with
  | nil =>
      intro t s _ _
      exact ⟨Or.inl rfl, le_refl _, by simp⟩
  | cons hd tl ih =>
      intro t s hs hall
      obtain ⟨v, hv⟩ := hall hd (List.mem_cons_self _ _)
      have hrun : runUpdates t (hd :: tl) = runUpdates (t.update hd.1 hd.2) tl := rfl
      have hupd := update_best_of_sharpe t hd.1 hd.2 s hs
      have htail : ∀ m ∈ tl, ∃ w, (m.2).lookup "sharpe_ratio" = some w :=
        fun m hm => hall m (List.mem_cons_of_mem _ hm)
      by_cases hlt : s < primaryMetricOf hd.2
      · have hb' : (t.update hd.1 hd.2).best_metrics = hd.2 := by
          rw [hupd, if_pos hlt]
        have hs' : (t.update hd.1 hd.2).best_metrics.lookup "sharpe_ratio" = some v := by
          rw [hb']; exact hv
        obtain ⟨hmem, hle, hall'⟩ := ih (t.update hd.1 hd.2) v hs' htail
        rw [hrun]
        refine ⟨?_, ?_, ?_⟩
        · rcases hmem with hcase | hcase
          · exact Or.inr (by rw [hcase, hb']; exact List.mem_cons_self _ _)
          · exact Or.inr (List.mem_cons_of_mem _ hcase)
        · have h1 : sharpeOf t.best_metrics = s := sharpeOf_of_lookup hs
          have h2 : sharpeOf (t.update hd.1 hd.2).best_metrics = v := by
            rw [hb']; exact sharpeOf_of_lookup hv
          have h3 : primaryMetricOf hd.2 = v := primaryMetricOf_of_sharpe hv
          rw [h1]
          calc s ≤ v := le_of_lt (h3 ▸ hlt)
            _ = sharpeOf (t.update hd.1 hd.2).best_metrics := h2.symm
            _ ≤ _ := hle
        · intro m hm
          rcases List.mem_cons.mp hm with rfl | hm'
          · have h2 : sharpeOf (t.update m.1 m.2).best_metrics = v := by
              rw [hb']; exact sharpeOf_of_lookup hv
            have h4 : sharpeOf m.2 = v := sharpeOf_of_lookup hv
            rw [h4, ← h2]
            exact hle
          · exact hall' m hm'
      · have hb' : (t.update hd.1 hd.2).best_metrics = t.best_metrics := by
          rw [hupd, if_neg hlt]
        have hs' : (t.update hd.1 hd.2).best_metrics.lookup "sharpe_ratio" = some s := by
          rw [hb']; exact hs
        obtain ⟨hmem, hle, hall'⟩ := ih (t.update hd.1 hd.2) s hs' htail
        rw [hrun]
        refine ⟨?_, ?_, ?_⟩
        · rcases hmem with hcase | hcase
          · exact Or.inl (by rw [hcase, hb'])
          · exact Or.inr (List.mem_cons_of_mem _ hcase)
        · have h2 : sharpeOf (t.update hd.1 hd.2).best_metrics = sharpeOf t.best_metrics := by
            rw [hb']
          rw [← h2]
          exact hle
        · intro m hm
          rcases List.mem_cons.mp hm with rfl | hm'
          · have h3 : primaryMetricOf m.2 = v := primaryMetricOf_of_sharpe hv
            have h4 : sharpeOf m.2 = v := sharpeOf_of_lookup hv
            have h5 : v ≤ s := by
              rw [← h3]
              exact not_lt.mp hlt
            have h1 : sharpeOf t.best_metrics = s := sharpeOf_of_lookup hs
            have h2 : sharpeOf (t.update m.1 m.2).best_metrics = sharpeOf t.best_metrics := by
              rw [hb']
            rw [h4]
            calc v ≤ s := h5
              _ = sharpeOf (t.update m.1 m.2).best_metrics := by rw [h2, h1]
              _ ≤ _ := hle
          · exact hall' m hm'

theorem runUpdates_no_sharpe_aux (ms : List (ℕ × List (String × ℚ))) :
    ∀ t : MetricsTracker,
      t.best_metrics.lookup "sharpe_ratio" = none →
      (∀ m ∈ ms, (m.2).lookup "sharpe_ratio" = none) →
      (runUpdates t ms).best_metrics = (ms.map Prod.snd).getLastD t.best_metrics := by
  induction ms with
  | nil => intro t _ _; rfl
  | cons hd tl ih =>
      intro t ht hall
      have hb : (t.update hd.1 hd.2).best_metrics = hd.2 :=
        update_best_of_no_sharpe t hd.1 hd.2 ht
      have hrun : runUpdates t (hd :: tl) = runUpdates (t.update hd.1 hd.2) tl := rfl
      rw [hrun,
        ih (t.update hd.1 hd.2)
          (by rw [hb]; exact hall hd (List.mem_cons_self _ _))
          (fun m hm => hall m (List.mem_cons_of_mem _ hm)),
        hb, List.map_cons, List.getLastD_cons]

/-- Claim C9 (counterexample): with bundles that carry only an `f1` entry, the
second update overwrites a strictly better first bundle, so the retained
`best_metrics` is not the bundle with the highest primary metric. -/
theorem best_metrics_not_max_f1 :
    (runUpdates MetricsTracker.init
        [(0, [("f1", (9:ℚ)/10)]), (1, [("f1", 1/10)])]).best_metrics
      = [("f1", (1:ℚ)/10)] ∧
    primaryMetricOf ((runUpdates MetricsTracker.init
        [(0, [("f1", (9:ℚ)/10)]), (1, [("f1", 1/10)])]).best_metrics)
      < primaryMetricOf [("f1", (9:ℚ)/10)] := by
  have hrun : (runUpdates MetricsTracker.init
      [(0, [("f1", (9:ℚ)/10)]), (1, [("f1", 1/10)])]).best_metrics
        = [("f1", (1:ℚ)/10)] := rfl
  have h1 : primaryMetricOf [("f1", (1:ℚ)/10)] = 1/10 := rfl
  have h2 : primaryMetricOf [("f1", (9:ℚ)/10)] = 9/10 := rfl
  exact ⟨hrun, by rw [hrun, h1, h2]; norm_num⟩

/-- Claim C9 (amended): after a sequence of `MetricsTracker.update` calls, the
retained `best_metrics` is a bundle of maximal Sharpe ratio among all updates
so far, provided every bundle carries a `sharpe_ratio` entry; when no bundle
carries one, the comparison against the retained bundle's absent
`sharpe_ratio` (default −inf) always succeeds, so each update overwrites
`best_metrics` and the most recent bundle is retained instead of the
highest-F1 one. -/
theorem best_metrics_tracks_max_sharpe (ms : List (ℕ × List (String × ℚ)))
    (h : ms ≠ []) :
    ((∀ m ∈ ms, ∃ v, (m.2).lookup "sharpe_ratio" = some v) →
      ((runUpdates MetricsTracker.init ms).best_metrics ∈ ms.map Prod.snd ∧
        ∀ m ∈ ms, sharpeOf m.2 ≤ sharpeOf (runUpdates MetricsTracker.init ms).best_metrics)) ∧
    ((∀ m ∈ ms, (m.2).lookup "sharpe_ratio" = none) →
      (runUpdates MetricsTracker.init ms).best_metrics = (ms.map Prod.snd).getLastD []) := by
  constructor
  · intro hall
    obtain ⟨hd, tl, rfl⟩ := List.exists_cons_of_ne_nil h
    obtain ⟨v, hv⟩ := hall hd (List.mem_cons_self _ _)
    have hb1 : (MetricsTracker.init.update hd.1 hd.2).best_metrics = hd.2 :=
      update_best_of_no_sharpe MetricsTracker.init hd.1 hd.2 rfl
    have hs1 : (MetricsTracker.init.update hd.1 hd.2).best_metrics.lookup
        "sharpe_ratio" = some v := by rw [hb1]; exact hv
    have hrun : runUpdates MetricsTracker.init (hd :: tl) =
        runUpdates (MetricsTracker.init.update hd.1 hd.2) tl := rfl
    obtain ⟨hmem, hle, hall'⟩ :=
      runUpdates_sharpe_aux tl (MetricsTracker.init.update hd.1 hd.2) v hs1
        (fun m hm => hall m (List.mem_cons_of_mem _ hm))
    rw [hrun]
    refine ⟨?_, ?_⟩
    · rcases hmem with hcase | hcase
      · rw [hcase, hb1]
        exact List.mem_cons_self _ _
      · exact List.mem_cons_of_mem _ hcase
    · intro m hm
      rcases List.mem_cons.mp hm with rfl | hm'
      · have h4 : sharpeOf m.2 = v := sharpeOf_of_lookup hv
        have h2 : sharpeOf (MetricsTracker.init.update m.1 m.2).best_metrics = v := by
          rw [hb1]; exact sharpeOf_of_lookup hv
        rw [h4, ← h2]
        exact hle
      · exact hall' m hm'
  · intro hall
    exact runUpdates_no_sharpe_aux ms MetricsTracker.init rfl hall

/-- Claim C9 (witness for the amended claim): with Sharpe ratios 1, 3, 2 the
retained bundle is the one holding the maximal Sharpe ratio; with F1-only
bundles the most recent bundle is retained. -/
theorem best_metrics_tracks_max_sharpe_witness :
    (([((0:ℕ), [("sharpe_ratio", (1:ℚ))]), (1, [("sharpe_ratio", 3)]),
        (2, [("sharpe_ratio", 2)])] : List (ℕ × List (String × ℚ))) ≠ [] ∧
      (∀ m ∈ ([((0:ℕ), [("sharpe_ratio", (1:ℚ))]), (1, [("sharpe_ratio", 3)]),
          (2, [("sharpe_ratio", 2)])] : List (ℕ × List (String × ℚ))),
        ∃ v, (m.2).lookup "sharpe_ratio" = some v) ∧
      ((runUpdates MetricsTracker.init
          [((0:ℕ), [("sharpe_ratio", (1:ℚ))]), (1, [("sharpe_ratio", 3)]),
            (2, [("sharpe_ratio", 2)])]).best_metrics ∈
        ([((0:ℕ), [("sharpe_ratio", (1:ℚ))]), (1, [("sharpe_ratio", 3)]),
          (2, [("sharpe_ratio", 2)])] : List (ℕ × List (String × ℚ))).map Prod.snd ∧
        ∀ m ∈ ([((0:ℕ), [("sharpe_ratio", (1:ℚ))]), (1, [("sharpe_ratio", 3)]),
            (2, [("sharpe_ratio", 2)])] : List (ℕ × List (String × ℚ))),
          sharpeOf m.2 ≤ sharpeOf (runUpdates MetricsTracker.init
            [((0:ℕ), [("sharpe_ratio", (1:ℚ))]), (1, [("sharpe_ratio", 3)]),
              (2, [("sharpe_ratio", 2)])]).best_metrics)) ∧
    (([((0:ℕ), [("f1", (1:ℚ))]), (1, [("f1", 2)])] : List (ℕ × List (String × ℚ))) ≠ [] ∧
      (∀ m ∈ ([((0:ℕ), [("f1", (1:ℚ))]), (1, [("f1", 2)])] :
          List (ℕ × List (String × ℚ))), (m.2).lookup "sharpe_ratio" = none) ∧
      (runUpdates MetricsTracker.init
          [((0:ℕ), [("f1", (1:ℚ))]), (1, [("f1", 2)])]).best_metrics =
        (([((0:ℕ), [("f1", (1:ℚ))]), (1, [("f1", 2)])] :
          List (ℕ × List (String × ℚ))).map Prod.snd).getLastD []) :=
  ⟨⟨by simp, fun m hm => by fin_cases hm <;> exact ⟨_, rfl⟩,
    (best_metrics_tracks_max_sharpe _ (by simp)).1
      (fun m hm => by fin_cases hm <;> exact ⟨_, rfl⟩)⟩,
   ⟨by simp, fun m hm => by fin_cases hm <;> rfl,
    (best_metrics_tracks_max_sharpe _ (by simp)).2
      (fun m hm => by fin_cases hm <;> rfl)⟩⟩

theorem topkOrder_length {A : ℕ} (p : Fin A → ℝ) : (topkOrder p).length = A := by
  simp [topkOrder, List.length_insertionSort]

theorem topkOrder_sorted {A : ℕ} (p : Fin A → ℝ) :
    List.Sorted (fun i j => p j ≤ p i) (topkOrder p) := by
  have h1 : IsTotal (Fin A) (fun i j => p j ≤ p i) := ⟨fun a b => le_total (p b) (p a)⟩
  have h2 : IsTrans (Fin A) (fun i j => p j ≤ p i) :=
    ⟨fun a b c hab hbc => le_trans hbc hab⟩
  exact List.sorted_insertionSort _ _

/-- Claim C10: `predict_step` succeeds exactly when `top_k` does not exceed
the asset count; on success it returns, per sample, exactly `top_k` asset
indices with their temperature-scaled softmax probabilities in descending
order, while confidence, risk scores and regime probabilities pass through
unchanged from the forward outputs. -/
theorem predict_step_topk (A R : ℕ) (outputs : ModelOutputs A R)
    (temperature : ℝ) (k : ℕ) :
    (k ≤ A → PredictStepOk outputs temperature k) ∧
    (A < k → predict_step outputs temperature k =
      .error "selected index k out of range") := by
  constructor
  · intro hk
    unfold PredictStepOk predict_step
    rw [if_pos hk]
    refine ⟨_, rfl, rfl, rfl, rfl, by simp, ?_, ?_, ?_⟩
    · intro l hl
      obtain ⟨pp, -, rfl⟩ := List.mem_map.mp hl
      simp [List.length_take, topkOrder_length, Nat.min_eq_left hk]
    · simp only [List.map_map]
      rw [List.zipWith_map_right, List.zipWith_same]
      rfl
    · intro l hl
      obtain ⟨pp, -, rfl⟩ := List.mem_map.mp hl
      exact List.pairwise_map.mpr
        ((topkOrder_sorted pp).sublist (List.take_sublist _ _))
  · intro hk
    unfold predict_step
    rw [if_neg (not_le.mpr hk)]

/-- Claim C10 (witness): with 2 assets, `top_k = 2` succeeds with the stated
shape and ordering guarantees, and `top_k = 3` fails. -/
theorem predict_step_topk_witness :
    ((2 ≤ 2) ∧ PredictStepOk sampleOutputs 1 2) ∧
    ((2 < 3) ∧ predict_step sampleOutputs 1 3 =
      .error "selected index k out of range") :=
  ⟨⟨by decide, (predict_step_topk 2 1 sampleOutputs 1 2).1 (by decide)⟩,
   ⟨by decide, (predict_step_topk 2 1 sampleOutputs 1 3).2 (by decide)⟩⟩
